import Mathlib

/-!
Shallow embedding of the transactions REST service
(src/src/routes/transactions.ts) together with the session middleware it
registers as a preHandler. Each Fastify route handler becomes a pure
function from the request pieces (path parameter, cookies, parsed JSON
body, the fresh UUIDs the handler would mint) and the current state of
the `transactions` table to the HTTP response, the new table state, and
the ordered trace of validation and store events the handler performed.

Numbers are modelled as integers (the claims only concern signs and
sums), JSON bodies as optional tagged values so that mistyped or missing
fields are representable, and knex query results follow SQL semantics
(in particular SUM over zero rows is NULL, i.e. `none`).
-/

namespace TxApi

/-- A JSON value as far as the zod body schemas can distinguish it. -/
inductive JValue where
  | jstr (s : String)
  | jnum (n : Int)
  | jbool (b : Bool)
  | jnull
  deriving DecidableEq, Repr

/-- The request body for POST / and PUT /:id, before validation: each of
the three fields the schema looks at may be missing or of any JSON type. -/
structure ReqBody where
  title : Option JValue
  amount : Option JValue
  ttype : Option JValue
  deriving DecidableEq, Repr

/-- The enum z.enum(\x5b'credit', 'debit'\x5d). -/
inductive TransactionType where
  | credit
  | debit
  deriving DecidableEq, Repr

/-- A body accepted by createTransactionBodySchema / updateTransactionBodySchema:
title a string, amount a number, type one of the two literals. -/
structure ParsedBody where
  title : String
  amount : Int
  ttype : TransactionType
  deriving DecidableEq, Repr

/-- zod parse of the type field: exactly the strings "credit" and "debit". -/
def parseType : Option JValue → Option TransactionType
  | some (.jstr "credit") => some .credit
  | some (.jstr "debit") => some .debit
  | _ => none

/-- zod parse of the create/update body schema: title must be a string,
amount a number, type one of the enum literals; anything else rejects. -/
def parseBody (b : ReqBody) : Option ParsedBody :=
  match b.title, b.amount, parseType b.ttype with
  | some (.jstr t), some (.jnum a), some ty => some ⟨t, a, ty⟩
  | _, _, _ => none

/-- Hexadecimal digit, either case. -/
def isHexDigit (c : Char) : Bool :=
  c.isDigit || (decide (97 ≤ c.toNat) && decide (c.toNat ≤ 102))
    || (decide (65 ≤ c.toNat) && decide (c.toNat ≤ 70))

/-- z.string().uuid(): the canonical 8-4-4-4-12 hyphenated hexadecimal form,
checked positionally (hyphens at offsets 8, 13, 18 and 23, hex digits
everywhere else, 36 characters in total). -/
def isUUID (s : String) : Bool :=
  let cs := s.toList
  cs.length == 36 &&
    ((List.range 36).all fun i =>
      match cs.get? i with
      | none => false
      | some c =>
        if i == 8 || i == 13 || i == 18 || i == 23 then c == '-' else isHexDigit c)

/-- One row of the `transactions` table. -/
structure Transaction where
  id : String
  title : String
  amount : Int
  session_id : String
  deriving DecidableEq, Repr

/-- The `transactions` table, in insertion order. -/
abbrev Store := List Transaction

/-- The request cookies as the handlers read them: `request.cookies.sessionId`
is either absent or a (possibly empty) string value. -/
structure Cookies where
  sessionId : Option String
  deriving DecidableEq, Repr

/-- JavaScript truthiness of `request.cookies.sessionId`: `undefined` and
the empty string are falsy, every other string is truthy. -/
def jsTruthy : Option String → Bool
  | none => false
  | some s => !(s == "")

/-- The cookie options passed to reply.setCookie. -/
structure SetCookie where
  name : String
  value : String
  path : String
  maxAge : Nat
  deriving DecidableEq, Repr

/-- The JSON body of a response, as far as the handlers produce them. -/
inductive RespBody where
  | transactionsList (transactions : List Transaction)
  | transactionOne (transaction : Transaction)
  | summaryBody (amount : Option Int)
  | message (m : String)
  | errorBody (e : String)
  deriving DecidableEq, Repr

/-- An HTTP response: status code, JSON body, and at most one Set-Cookie. -/
structure Response where
  status : Nat
  body : RespBody
  setCookie : Option SetCookie := none
  deriving DecidableEq, Repr

/-- A parametrized knex call against the `transactions` table. The
session-id binding is kept as an Option because the handlers pass
`request.cookies.sessionId` through unchecked. -/
inductive StoreCall where
  | selectAllWhere (sessionId : Option String)
  | selectFirstWhere (id : String) (sessionId : Option String)
  | sumWhere (sessionId : Option String)
  | insertRow (t : Transaction)
  | updateWhere (id : String) (sessionId : Option String) (title : String) (amount : Int)
  | deleteWhere (id : String) (sessionId : Option String)
  deriving DecidableEq, Repr

/-- An observable step of a handler, in execution order: a zod validation
of the path params or of the body (with its outcome), or a store call. -/
inductive Event where
  | validatedParams (raw : String) (ok : Bool)
  | validatedBody (ok : Bool)
  | store (c : StoreCall)
  deriving DecidableEq, Repr

/-- The store calls of a trace, in order. -/
def storeCalls (evs : List Event) : List StoreCall :=
  evs.filterMap fun e =>
    match e with
    | .store c => some c
    | _ => none

/-- Whether a store call mutates the table. -/
def StoreCall.isWrite : StoreCall → Bool
  | .insertRow _ => true
  | .updateWhere _ _ _ _ => true
  | .deleteWhere _ _ => true
  | _ => false

/-- knex .where with the session-id binding: rows whose session_id equals
the bound cookie value (an absent binding matches no row). -/
def whereSession (sid : Option String) (db : Store) : List Transaction :=
  db.filter fun t => some t.session_id == sid

/-- knex .where on both id and session_id, preserving table order. -/
def whereTx (id : String) (sid : Option String) (db : Store) : List Transaction :=
  db.filter fun t => t.id == id && some t.session_id == sid

/-- SQL SUM(amount) over a set of rows: NULL (none) when there are no rows,
the integer sum otherwise. -/
def sqlSumAmount (rows : List Transaction) : Option Int :=
  match rows with
  | [] => none
  | _ => some ((rows.map Transaction.amount).sum)

/-- The uniform catch-all response every handler produces in its catch block. -/
def internalErrorResponse : Response :=
  { status := 500, body := .errorBody "Internal Server Error" }

/-- Modelled from the spec: the middleware `checkSessionIdExists`
(imported from ../middlewares/check-session-id-exists, a file not under
src/) extracts the sessionId cookie from the inbound request; if absent it
halts processing with a 401-class unauthenticated failure before any
validator or store call runs, otherwise it lets the request through. -/
def checkSessionIdExists (cookies : Cookies) : Option Response :=
  match cookies.sessionId with
  | none => some { status := 401, body := .errorBody "Unauthorized" }
  | some _ => none

/-- The result of running one route on one request: response, new table
state, and the ordered event trace. -/
abbrev RouteResult := Response × Store × List Event

/-- GET /: preHandler checkSessionIdExists, then select * where session_id. -/
def getAllRoute (cookies : Cookies) (db : Store) : RouteResult :=
  match checkSessionIdExists cookies with
  | some r => (r, db, [])
  | none =>
    let sid := cookies.sessionId
    let transactions := whereSession sid db
    ({ status := 200, body := .transactionsList transactions }, db,
      [.store (.selectAllWhere sid)])

/-- GET /:id: preHandler checkSessionIdExists; zod-parse the id as a UUID
(a failure is caught by the handler and becomes the 500 catch-all), then
select first where id and session_id; no row is a 404. -/
def getOneRoute (rawId : String) (cookies : Cookies) (db : Store) : RouteResult :=
  match checkSessionIdExists cookies with
  | some r => (r, db, [])
  | none =>
    if isUUID rawId then
      let sid := cookies.sessionId
      let ev := [Event.validatedParams rawId true, .store (.selectFirstWhere rawId sid)]
      match (whereTx rawId sid db).head? with
      | none => ({ status := 404, body := .message "Transaction not found" }, db, ev)
      | some t => ({ status := 200, body := .transactionOne t }, db, ev)
    else
      (internalErrorResponse, db, [.validatedParams rawId false])

/-- GET /summary: preHandler checkSessionIdExists, then
sum(amount) where session_id, first row, sent unnormalized. -/
def getSummaryRoute (cookies : Cookies) (db : Store) : RouteResult :=
  match checkSessionIdExists cookies with
  | some r => (r, db, [])
  | none =>
    let sid := cookies.sessionId
    ({ status := 200, body := .summaryBody (sqlSumAmount (whereSession sid db)) }, db,
      [.store (.sumWhere sid)])

/-- The session id the POST / handler ends up using: the cookie value when
it is truthy, otherwise the freshly minted UUID. -/
def postSessionId (cookies : Cookies) (newSessId : String) : String :=
  if jsTruthy cookies.sessionId then cookies.sessionId.getD "" else newSessId

/-- POST /: no preHandler. zod-parse the body (failure is caught and
becomes the 500 catch-all); if the sessionId cookie is falsy mint a new
one and set it as a cookie with path "/" and maxAge 1000*60*60*24*7;
insert the row with the sign-adjusted amount; reply 201.
newTxId and newSessId stand for the two randomUUID() draws. -/
def postRoute (body : ReqBody) (cookies : Cookies) (newTxId newSessId : String)
    (db : Store) : RouteResult :=
  match parseBody body with
  | none => (internalErrorResponse, db, [.validatedBody false])
  | some p =>
    let minted := !(jsTruthy cookies.sessionId)
    let sessionId := postSessionId cookies newSessId
    let cookieSet : Option SetCookie :=
      if minted then
        some { name := "sessionId", value := newSessId, path := "/",
               maxAge := 1000 * 60 * 60 * 24 * 7 }
      else none
    let row : Transaction :=
      { id := newTxId, title := p.title,
        amount := if p.ttype == .credit then p.amount else p.amount * (-1),
        session_id := sessionId }
    ({ status := 201, body := .message "Transaction created successfully",
       setCookie := cookieSet }, db ++ [row],
      [.validatedBody true, .store (.insertRow row)])

/-- PUT /:id: preHandler checkSessionIdExists; zod-parse the id (failure
caught, 500); select first where id and session_id; no row is a 404;
otherwise zod-parse the body (failure caught, 500) and update title and
sign-adjusted amount where id and session_id; reply 200. -/
def putRoute (rawId : String) (body : ReqBody) (cookies : Cookies) (db : Store) :
    RouteResult :=
  match checkSessionIdExists cookies with
  | some r => (r, db, [])
  | none =>
    if isUUID rawId then
      let sid := cookies.sessionId
      let ev0 := [Event.validatedParams rawId true, .store (.selectFirstWhere rawId sid)]
      match (whereTx rawId sid db).head? with
      | none => ({ status := 404, body := .message "Transaction not found" }, db, ev0)
      | some _ =>
        match parseBody body with
        | none => (internalErrorResponse, db, ev0 ++ [.validatedBody false])
        | some p =>
          let newAmount := if p.ttype == .credit then p.amount else p.amount * (-1)
          let db2 := db.map fun t =>
            if t.id == rawId && some t.session_id == sid then
              { t with title := p.title, amount := newAmount }
            else t
          ({ status := 200, body := .message "Transaction updated successfully" }, db2,
            ev0 ++ [.validatedBody true, .store (.updateWhere rawId sid p.title newAmount)])
    else
      (internalErrorResponse, db, [.validatedParams rawId false])

/-- DELETE /:id: preHandler checkSessionIdExists; zod-parse the id
(failure caught, 500); select first where id and session_id; no row is a
404; otherwise delete where id and session_id; reply 200. -/
def deleteRoute (rawId : String) (cookies : Cookies) (db : Store) : RouteResult :=
  match checkSessionIdExists cookies with
  | some r => (r, db, [])
  | none =>
    if isUUID rawId then
      let sid := cookies.sessionId
      let ev0 := [Event.validatedParams rawId true, .store (.selectFirstWhere rawId sid)]
      match (whereTx rawId sid db).head? with
      | none => ({ status := 404, body := .message "Transaction not found" }, db, ev0)
      | some _ =>
        let db2 := db.filter fun t => !(t.id == rawId && some t.session_id == sid)
        ({ status := 200, body := .message "Transaction deleted successfully" }, db2,
          ev0 ++ [.store (.deleteWhere rawId sid)])
    else
      (internalErrorResponse, db, [.validatedParams rawId false])

/-- The sign-adjustment rule as the spec states it:
stored amount = type == credit ? amount : -amount. -/
def specSignAdjusted (amount : Int) : TransactionType → Int
  | .credit => amount
  | .debit => -amount

/-- A well-typed body, used to instantiate universally quantified bodies
in the closed statements below. -/
def bodySalary : ReqBody :=
  { title := some (.jstr "Salary"), amount := some (.jnum 5000),
    ttype := some (.jstr "credit") }

/-- A body with a boolean where the title string should be, rejected by
the zod schema. -/
def bodyBadTitle : ReqBody :=
  { title := some (.jbool true), amount := some (.jnum 5000),
    ttype := some (.jstr "credit") }

/-- A concrete canonical UUID string. -/
def uuidA : String := "a0b1c2d3-0000-4000-8000-000000000000"

/-- A second concrete canonical UUID string, distinct from uuidA. -/
def uuidB : String := "b1b1c2d3-0000-4000-8000-000000000001"

/-- A transaction row fixture owned by session "sessA". -/
def txA : Transaction :=
  { id := uuidA, title := "Groceries", amount := 7, session_id := "sessA" }

/-- The inline sign adjustment of the handlers agrees with the rule as the
spec phrases it (after simp normalizes == to = and * (-1) to negation). -/
theorem ifSign_eq_spec (p : ParsedBody) :
    (if p.ttype = TransactionType.credit then p.amount else -p.amount) =
      specSignAdjusted p.amount p.ttype := by
  cases p.ttype <;> simp [specSignAdjusted]

/-- C1 counterexample: a GET /:id with id "not-a-uuid" and a session cookie
present is answered with status 500 — the handler catch-all — which is not
a 400-class status; no store call is made. -/
theorem getOneInvalidId_counterexample :
    (getOneRoute "not-a-uuid" { sessionId := some "sess" } []).1.status = 500 ∧
    ¬(400 ≤ (getOneRoute "not-a-uuid" { sessionId := some "sess" } []).1.status ∧
        (getOneRoute "not-a-uuid" { sessionId := some "sess" } []).1.status < 500) ∧
    storeCalls (getOneRoute "not-a-uuid" { sessionId := some "sess" } []).2.2 = [] := by
  decide

/-- C1 (amended): every request that fails input validation is answered by
the handler catch-all with status 500 (the same response as server
failures), not a 400: get-one, update or delete with a non-UUID path id
return 500 with no store call, create with an invalid body returns 500
with no store call; an update with a valid id and invalid body returns 404
when no row matches (the existence check precedes body validation) and 500
when one does; get-one with "not-a-uuid" performs no store call. -/
theorem validationFailure500 (rawId goodId s : String) (badBody : ReqBody)
    (db db₁ db₂ : Store) (cookies : Cookies) (newTxId newSessId : String)
    (hraw : isUUID rawId = false) (hbody : parseBody badBody = none)
    (hgood : isUUID goodId = true)
    (hempty : whereTx goodId (some s) db₁ = [])
    (hfound : whereTx goodId (some s) db₂ ≠ []) :
    (getOneRoute rawId ⟨some s⟩ db).1 = internalErrorResponse ∧
    storeCalls (getOneRoute rawId ⟨some s⟩ db).2.2 = [] ∧
    (putRoute rawId badBody ⟨some s⟩ db).1 = internalErrorResponse ∧
    storeCalls (putRoute rawId badBody ⟨some s⟩ db).2.2 = [] ∧
    (deleteRoute rawId ⟨some s⟩ db).1 = internalErrorResponse ∧
    storeCalls (deleteRoute rawId ⟨some s⟩ db).2.2 = [] ∧
    (postRoute badBody cookies newTxId newSessId db).1 = internalErrorResponse ∧
    storeCalls (postRoute badBody cookies newTxId newSessId db).2.2 = [] ∧
    (putRoute goodId badBody ⟨some s⟩ db₁).1.status = 404 ∧
    (putRoute goodId badBody ⟨some s⟩ db₂).1 = internalErrorResponse := by
  refine ⟨?_, ?_, ?_, ?_, ?_, ?_, ?_, ?_, ?_, ?_⟩
  · simp [getOneRoute, checkSessionIdExists, hraw]
  · simp [getOneRoute, checkSessionIdExists, hraw, storeCalls]
  · simp [putRoute, checkSessionIdExists, hraw]
  · simp [putRoute, checkSessionIdExists, hraw, storeCalls]
  · simp [deleteRoute, checkSessionIdExists, hraw]
  · simp [deleteRoute, checkSessionIdExists, hraw, storeCalls]
  · simp [postRoute, hbody]
  · simp [postRoute, hbody, storeCalls]
  · simp [putRoute, checkSessionIdExists, hgood, hempty]
  · rcases hx : (whereTx goodId (some s) db₂).head? with _ | tx0
    · rw [List.head?_eq_none_iff] at hx
      exact absurd hx hfound
    · simp [putRoute, checkSessionIdExists, hgood, hx, hbody]

/-- C1 witness: the amended statement holds at the concrete inputs
"not-a-uuid", uuidA, session "sessA", a body with a boolean title, the
empty table and the one-row table containing txA. -/
theorem validationFailure500_witness :
    (isUUID "not-a-uuid" = false ∧ parseBody bodyBadTitle = none ∧
      isUUID uuidA = true ∧ whereTx uuidA (some "sessA") [] = [] ∧
      whereTx uuidA (some "sessA") [txA] ≠ []) ∧
    ((getOneRoute "not-a-uuid" ⟨some "sessA"⟩ []).1 = internalErrorResponse ∧
    storeCalls (getOneRoute "not-a-uuid" ⟨some "sessA"⟩ []).2.2 = [] ∧
    (putRoute "not-a-uuid" bodyBadTitle ⟨some "sessA"⟩ []).1 = internalErrorResponse ∧
    storeCalls (putRoute "not-a-uuid" bodyBadTitle ⟨some "sessA"⟩ []).2.2 = [] ∧
    (deleteRoute "not-a-uuid" ⟨some "sessA"⟩ []).1 = internalErrorResponse ∧
    storeCalls (deleteRoute "not-a-uuid" ⟨some "sessA"⟩ []).2.2 = [] ∧
    (postRoute bodyBadTitle ⟨none⟩ "t1" "s1" []).1 = internalErrorResponse ∧
    storeCalls (postRoute bodyBadTitle ⟨none⟩ "t1" "s1" []).2.2 = [] ∧
    (putRoute uuidA bodyBadTitle ⟨some "sessA"⟩ []).1.status = 404 ∧
    (putRoute uuidA bodyBadTitle ⟨some "sessA"⟩ [txA]).1 = internalErrorResponse) :=
  ⟨by decide,
    validationFailure500 "not-a-uuid" uuidA "sessA" bodyBadTitle [] [] [txA]
      ⟨none⟩ "t1" "s1" (by decide) (by decide) (by decide) (by decide) (by decide)⟩

/-- C2: for every valid create or update request, the amount stored in the
transactions table is the request amount for type credit and its negation
for type debit: the row the create inserts carries the sign-adjusted
amount, and every row the update matches carries the sign-adjusted amount
in the new table state. -/
theorem storedAmountSignAdjusted
    (body : ReqBody) (p : ParsedBody) (hbody : parseBody body = some p)
    (cookies : Cookies) (newTxId newSessId : String) (db : Store)
    (rawId s : String) (hid : isUUID rawId = true) (db2 : Store)
    (hfound : ((whereTx rawId (some s) db2).head?).isSome = true) :
    (postRoute body cookies newTxId newSessId db).2.1 =
      db ++ [{ id := newTxId, title := p.title,
               amount := specSignAdjusted p.amount p.ttype,
               session_id := postSessionId cookies newSessId }] ∧
    (((putRoute rawId body ⟨some s⟩ db2).2.1.filter fun t =>
        t.id == rawId && some t.session_id == some s).all fun t =>
        t.amount == specSignAdjusted p.amount p.ttype) = true := by
  constructor
  · simp [postRoute, hbody, ifSign_eq_spec]
  · rcases Option.isSome_iff_exists.mp hfound with ⟨tx0, htx0⟩
    simp only [putRoute, checkSessionIdExists, hid, if_pos, htx0, hbody]
    rw [List.all_eq_true]
    intro t ht
    rw [List.mem_filter] at ht
    obtain ⟨ht, hcondt⟩ := ht
    simp only [List.mem_map] at ht
    rcases ht with ⟨u, hu, hut⟩
    simp only [Bool.and_eq_true, beq_iff_eq, Option.some.injEq] at hcondt
    obtain ⟨h1, h2⟩ := hcondt
    by_cases hcond : (u.id == rawId && some u.session_id == some s) = true
    · rw [hcond] at hut
      simp at hut
      rw [← hut]
      simp [ifSign_eq_spec]
    · simp only [Bool.not_eq_true] at hcond
      rw [hcond] at hut
      simp at hut
      rw [← hut] at h1 h2
      exact absurd hcond (by simp [h1, h2])

/-- C2 witness: the statement holds at a concrete debit create (amount
5000 stored as -5000 would be the debit case; here credit keeps 5000) and
a concrete update of txA. -/
theorem storedAmountSignAdjusted_witness :
    (parseBody bodySalary = some ⟨"Salary", 5000, .credit⟩ ∧
      isUUID uuidA = true ∧
      ((whereTx uuidA (some "sessA") [txA]).head?).isSome = true) ∧
    ((postRoute bodySalary ⟨none⟩ "t1" "s1" []).2.1 =
      [] ++ [{ id := "t1", title := "Salary",
               amount := specSignAdjusted 5000 .credit,
               session_id := postSessionId ⟨none⟩ "s1" }] ∧
    (((putRoute uuidA bodySalary ⟨some "sessA"⟩ [txA]).2.1.filter fun t =>
        t.id == uuidA && some t.session_id == some "sessA").all fun t =>
        t.amount == specSignAdjusted 5000 .credit) = true) :=
  ⟨by decide,
    storedAmountSignAdjusted bodySalary ⟨"Salary", 5000, .credit⟩ (by decide)
      ⟨none⟩ "t1" "s1" [] uuidA "sessA" (by decide) [txA] (by decide)⟩

/-- C3: creating a transaction with a valid body and then fetching it by
the id the create operation generated, presenting the session cookie the
create resolved (the freshly issued one, or the request cookie it reused),
returns 200 with a record whose title equals the input title and whose
amount equals the sign-adjusted input amount. The freshly drawn UUID is
assumed not to collide with an id already in the table. -/
theorem createThenGetRoundTrip
    (body : ReqBody) (p : ParsedBody) (hbody : parseBody body = some p)
    (cookies : Cookies) (newTxId newSessId : String) (db : Store)
    (hid : isUUID newTxId = true)
    (hfresh : (db.all fun t => !(t.id == newTxId)) = true) :
    (getOneRoute newTxId ⟨some (postSessionId cookies newSessId)⟩
        (postRoute body cookies newTxId newSessId db).2.1).1 =
      { status := 200,
        body := .transactionOne
          { id := newTxId, title := p.title,
            amount := specSignAdjusted p.amount p.ttype,
            session_id := postSessionId cookies newSessId } } := by
  have hpost : (postRoute body cookies newTxId newSessId db).2.1 =
      db ++ [{ id := newTxId, title := p.title,
               amount := specSignAdjusted p.amount p.ttype,
               session_id := postSessionId cookies newSessId }] := by
    simp [postRoute, hbody, ifSign_eq_spec]
  rw [hpost]
  have hnil : whereTx newTxId (some (postSessionId cookies newSessId)) db = [] := by
    rw [whereTx, List.filter_eq_nil_iff]
    intro t ht
    rw [List.all_eq_true] at hfresh
    have := hfresh t ht
    simp at this
    simp [this]
  simp only [getOneRoute, checkSessionIdExists, hid, if_pos, whereTx, List.filter_append]
  rw [whereTx] at hnil
  rw [hnil]
  simp

/-- C3 witness: a concrete create of the Salary body with no cookie, over
the empty table, followed by the fetch with the issued session. -/
theorem createThenGetRoundTrip_witness :
    (parseBody bodySalary = some ⟨"Salary", 5000, .credit⟩ ∧
      isUUID uuidA = true ∧ (([] : Store).all fun t => !(t.id == uuidA)) = true) ∧
    (getOneRoute uuidA ⟨some (postSessionId ⟨none⟩ "s1")⟩
        (postRoute bodySalary ⟨none⟩ uuidA "s1" []).2.1).1 =
      { status := 200,
        body := .transactionOne
          { id := uuidA, title := "Salary",
            amount := specSignAdjusted 5000 .credit,
            session_id := postSessionId ⟨none⟩ "s1" } } :=
  ⟨by decide,
    createThenGetRoundTrip bodySalary ⟨"Salary", 5000, .credit⟩ (by decide)
      ⟨none⟩ uuidA "s1" [] (by decide) (by decide)⟩

/-- C4: a transaction created under session A is invisible to any session
B with a different id: the list operation under B returns exactly the rows
whose session_id is B (which exclude the transaction), the summary
aggregates exactly those rows, and get-one on the transaction id under B
answers 404 (assuming table ids are unique, as they are server-generated). -/
theorem sessionIsolation (db : Store) (tx : Transaction) (b : String)
    (htx : tx ∈ db) (hb : b ≠ tx.session_id) (hid : isUUID tx.id = true)
    (huniq : (db.all fun u => !(u.id == tx.id) || u == tx) = true) :
    (getAllRoute ⟨some b⟩ db).1.body = .transactionsList (whereSession (some b) db) ∧
    tx ∉ whereSession (some b) db ∧
    (getSummaryRoute ⟨some b⟩ db).1.body =
      .summaryBody (sqlSumAmount (whereSession (some b) db)) ∧
    (getOneRoute tx.id ⟨some b⟩ db).1 =
      { status := 404, body := .message "Transaction not found" } := by
  refine ⟨?_, ?_, ?_, ?_⟩
  · simp [getAllRoute, checkSessionIdExists]
  · intro hmem
    rw [whereSession, List.mem_filter] at hmem
    have : tx.session_id = b := by simpa using hmem.2
    exact hb this.symm
  · simp [getSummaryRoute, checkSessionIdExists]
  · have hnil : whereTx tx.id (some b) db = [] := by
      rw [whereTx, List.filter_eq_nil_iff]
      intro u hu hcond
      simp only [Bool.and_eq_true, beq_iff_eq, Option.some.injEq] at hcond
      rw [List.all_eq_true] at huniq
      have := huniq u hu
      simp only [Bool.or_eq_true, Bool.not_eq_eq_eq_not, Bool.not_true, beq_eq_false_iff_ne,
        beq_iff_eq] at this
      rcases this with hne | heq
      · exact hne hcond.1
      · rw [heq] at hcond
        exact hb hcond.2.symm
    simp [getOneRoute, checkSessionIdExists, hid, hnil]

/-- C4 witness: the concrete table holding only txA (session "sessA"),
queried with session "sessB". -/
theorem sessionIsolation_witness :
    (txA ∈ [txA] ∧ "sessB" ≠ txA.session_id ∧ isUUID txA.id = true ∧
      (([txA] : Store).all fun u => !(u.id == txA.id) || u == txA) = true) ∧
    ((getAllRoute ⟨some "sessB"⟩ [txA]).1.body =
      .transactionsList (whereSession (some "sessB") [txA]) ∧
    txA ∉ whereSession (some "sessB") [txA] ∧
    (getSummaryRoute ⟨some "sessB"⟩ [txA]).1.body =
      .summaryBody (sqlSumAmount (whereSession (some "sessB") [txA])) ∧
    (getOneRoute txA.id ⟨some "sessB"⟩ [txA]).1 =
      { status := 404, body := .message "Transaction not found" }) :=
  ⟨⟨by decide, by decide, by decide, by decide⟩,
    sessionIsolation [txA] txA "sessB" (by decide) (by decide) (by decide) (by decide)⟩

/-- C5 counterexample: for a session with zero transactions the summary
response carries a null amount (SQL SUM over no rows), which the handler
sends unnormalized — the client does not receive 0. -/
theorem summaryEmpty_counterexample :
    (getSummaryRoute ⟨some "sessB"⟩ []).1.body = .summaryBody none ∧
    RespBody.summaryBody none ≠ .summaryBody (some 0) := by
  decide

/-- C5 (amended): the summary amount is the SQL SUM of the stored
(sign-adjusted) amounts of the rows under the session: the integer sum
when the session has at least one row, and null — sent to the client
unnormalized, not as 0 — when it has none. -/
theorem summaryAdditivity (s : String) (db db₁ db₂ : Store)
    (h₁ : whereSession (some s) db₁ = [])
    (h₂ : whereSession (some s) db₂ ≠ []) :
    (getSummaryRoute ⟨some s⟩ db).1 =
      { status := 200, body := .summaryBody (sqlSumAmount (whereSession (some s) db)) } ∧
    (getSummaryRoute ⟨some s⟩ db₂).1.body =
      .summaryBody (some (((whereSession (some s) db₂).map Transaction.amount).sum)) ∧
    (getSummaryRoute ⟨some s⟩ db₁).1.body = .summaryBody none := by
  refine ⟨?_, ?_, ?_⟩
  · simp [getSummaryRoute, checkSessionIdExists]
  · simp only [getSummaryRoute, checkSessionIdExists]
    rcases hx : whereSession (some s) db₂ with _ | ⟨t, ts⟩
    · exact absurd hx h₂
    · simp [sqlSumAmount]
  · simp [getSummaryRoute, checkSessionIdExists, h₁, sqlSumAmount]

/-- C5 witness: a session with one credit row of 7 sums to 7; a session
with no rows yields the null amount. -/
theorem summaryAdditivity_witness :
    (whereSession (some "sessA") [] = [] ∧
      whereSession (some "sessA") [txA] ≠ []) ∧
    ((getSummaryRoute ⟨some "sessA"⟩ [txA]).1 =
      { status := 200,
        body := .summaryBody (sqlSumAmount (whereSession (some "sessA") [txA])) } ∧
    (getSummaryRoute ⟨some "sessA"⟩ [txA]).1.body =
      .summaryBody (some (((whereSession (some "sessA") [txA]).map Transaction.amount).sum)) ∧
    (getSummaryRoute ⟨some "sessA"⟩ []).1.body = .summaryBody none) :=
  ⟨⟨by decide, by decide⟩,
    summaryAdditivity "sessA" [txA] [] [txA] (by decide) (by decide)⟩

/-- C6: at a concrete create request with no session cookie and a valid
body, the 201 response sets the sessionId cookie with path "/" but with
maxAge 1000*60*60*24*7 = 604800000 — a milliseconds value handed to a
seconds field — which is not the 604800 seconds (7 days) the code comment
and the spec intend. -/
theorem createCookieMaxAge :
    (postRoute bodySalary ⟨none⟩ "t1" "s1" []).1.status = 201 ∧
    (postRoute bodySalary ⟨none⟩ "t1" "s1" []).1.setCookie =
      some { name := "sessionId", value := "s1", path := "/", maxAge := 604800000 } ∧
    (604800000 : Nat) ≠ 604800 := by
  decide

/-- C7 counterexample: an update with a valid path id, a malformed body
and an existing target row does perform the existence-check read — the
select-first store call is in the trace even though the body is invalid,
because the handler validates the body only after the existence check. -/
theorem updateBodyAfterCheck_counterexample :
    parseBody bodyBadTitle = none ∧
    Event.store (.selectFirstWhere uuidA (some "sessA")) ∈
      (putRoute uuidA bodyBadTitle ⟨some "sessA"⟩ [txA]).2.2 := by
  decide

/-- C7 (amended): the update handler validates the path id first, then
runs the existence check, and only then validates the body: the first two
trace events of an update with a valid id are the params validation and
the select-first read. A malformed body therefore never triggers the
update write — no write store call appears in the trace and the table is
unchanged — but it does not prevent the existence-check read. -/
theorem updatePipelineOrder (rawId s : String) (body : ReqBody) (db : Store)
    (hid : isUUID rawId = true) (hbody : parseBody body = none) :
    (putRoute rawId body ⟨some s⟩ db).2.2.take 2 =
      [Event.validatedParams rawId true, .store (.selectFirstWhere rawId (some s))] ∧
    ((storeCalls (putRoute rawId body ⟨some s⟩ db).2.2).all
      fun c => !c.isWrite) = true ∧
    (putRoute rawId body ⟨some s⟩ db).2.1 = db := by
  rcases hx : (whereTx rawId (some s) db).head? with _ | tx0 <;>
    simp [putRoute, checkSessionIdExists, hid, hx, hbody, storeCalls, StoreCall.isWrite]

/-- C7 witness: the amended statement holds at the concrete update of txA
with the boolean-titled body. -/
theorem updatePipelineOrder_witness :
    (isUUID uuidA = true ∧ parseBody bodyBadTitle = none) ∧
    ((putRoute uuidA bodyBadTitle ⟨some "sessA"⟩ [txA]).2.2.take 2 =
      [Event.validatedParams uuidA true, .store (.selectFirstWhere uuidA (some "sessA"))] ∧
    ((storeCalls (putRoute uuidA bodyBadTitle ⟨some "sessA"⟩ [txA]).2.2).all
      fun c => !c.isWrite) = true ∧
    (putRoute uuidA bodyBadTitle ⟨some "sessA"⟩ [txA]).2.1 = [txA]) :=
  ⟨⟨by decide, by decide⟩,
    updatePipelineOrder uuidA "sessA" bodyBadTitle [txA] (by decide) (by decide)⟩

/-- C8: a list, get-one, summarize, update or delete request without the
session cookie is halted by the preHandler with the 401 unauthenticated
response, with the table untouched and an empty event trace — no validator
ran and no store call was made; the create route has no preHandler, so the
same cookieless request with a valid body still reaches the handler and is
answered 201. -/
theorem sessionGuardHalts (rawId : String) (body : ReqBody) (p : ParsedBody)
    (db : Store) (newTxId newSessId : String) (hbody : parseBody body = some p) :
    getAllRoute ⟨none⟩ db =
      ({ status := 401, body := .errorBody "Unauthorized" }, db, []) ∧
    getOneRoute rawId ⟨none⟩ db =
      ({ status := 401, body := .errorBody "Unauthorized" }, db, []) ∧
    getSummaryRoute ⟨none⟩ db =
      ({ status := 401, body := .errorBody "Unauthorized" }, db, []) ∧
    putRoute rawId body ⟨none⟩ db =
      ({ status := 401, body := .errorBody "Unauthorized" }, db, []) ∧
    deleteRoute rawId ⟨none⟩ db =
      ({ status := 401, body := .errorBody "Unauthorized" }, db, []) ∧
    (postRoute body ⟨none⟩ newTxId newSessId db).1.status = 201 := by
  refine ⟨?_, ?_, ?_, ?_, ?_, ?_⟩ <;>
    simp [getAllRoute, getOneRoute, getSummaryRoute, putRoute, deleteRoute,
      postRoute, checkSessionIdExists, hbody]

/-- C8 witness: the guard halts all five protected routes at a concrete
cookieless request and the cookieless create still returns 201. -/
theorem sessionGuardHalts_witness :
    parseBody bodySalary = some ⟨"Salary", 5000, .credit⟩ ∧
    (getAllRoute ⟨none⟩ [txA] =
      ({ status := 401, body := .errorBody "Unauthorized" }, [txA], []) ∧
    getOneRoute uuidA ⟨none⟩ [txA] =
      ({ status := 401, body := .errorBody "Unauthorized" }, [txA], []) ∧
    getSummaryRoute ⟨none⟩ [txA] =
      ({ status := 401, body := .errorBody "Unauthorized" }, [txA], []) ∧
    putRoute uuidA bodySalary ⟨none⟩ [txA] =
      ({ status := 401, body := .errorBody "Unauthorized" }, [txA], []) ∧
    deleteRoute uuidA ⟨none⟩ [txA] =
      ({ status := 401, body := .errorBody "Unauthorized" }, [txA], []) ∧
    (postRoute bodySalary ⟨none⟩ "t1" "s1" [txA]).1.status = 201) :=
  ⟨by decide,
    sessionGuardHalts uuidA bodySalary ⟨"Salary", 5000, .credit⟩ [txA] "t1" "s1" (by decide)⟩

/-- C9 counterexample: a create presenting a session cookie whose value is
the empty string — a present cookie — is not reused: the JS falsiness test
treats it as absent, a fresh identifier is minted, a new cookie is set,
and the inserted row carries the minted id instead of the empty one. -/
theorem emptyCookieNotReused_counterexample :
    (postRoute bodySalary ⟨some ""⟩ "t1" "s1" []).1.setCookie =
      some { name := "sessionId", value := "s1", path := "/", maxAge := 604800000 } ∧
    (postRoute bodySalary ⟨some ""⟩ "t1" "s1" []).2.1 =
      [{ id := "t1", title := "Salary", amount := 5000, session_id := "s1" }] := by
  decide

/-- C9 (amended): on create, if the session cookie is absent — or present
with the empty value, which the JS truthiness test conflates with absence
— a fresh identifier is minted, returned as a response cookie, and stored
as the new row's session_id; a present non-empty cookie is reused: no
cookie is set and the row carries the cookie value, so two creates with
the same non-empty cookie produce two rows sharing that session_id. -/
theorem sessionBootstrap (body₁ body₂ : ReqBody) (p₁ p₂ : ParsedBody)
    (h₁ : parseBody body₁ = some p₁) (h₂ : parseBody body₂ = some p₂)
    (s i₁ n₁ i₂ n₂ : String) (hs : s ≠ "") (db : Store) :
    (postRoute body₁ ⟨none⟩ i₁ n₁ db).1.setCookie =
      some { name := "sessionId", value := n₁, path := "/",
             maxAge := 1000 * 60 * 60 * 24 * 7 } ∧
    (postRoute body₁ ⟨none⟩ i₁ n₁ db).2.1 =
      db ++ [{ id := i₁, title := p₁.title,
               amount := specSignAdjusted p₁.amount p₁.ttype, session_id := n₁ }] ∧
    (postRoute body₁ ⟨some s⟩ i₁ n₁ db).1.setCookie = none ∧
    (postRoute body₂ ⟨some s⟩ i₂ n₂ (postRoute body₁ ⟨some s⟩ i₁ n₁ db).2.1).1.setCookie =
      none ∧
    (postRoute body₂ ⟨some s⟩ i₂ n₂ (postRoute body₁ ⟨some s⟩ i₁ n₁ db).2.1).2.1 =
      db ++ [{ id := i₁, title := p₁.title,
               amount := specSignAdjusted p₁.amount p₁.ttype, session_id := s },
             { id := i₂, title := p₂.title,
               amount := specSignAdjusted p₂.amount p₂.ttype, session_id := s }] := by
  refine ⟨?_, ?_, ?_, ?_, ?_⟩ <;>
    simp [postRoute, h₁, h₂, jsTruthy, postSessionId, hs, ifSign_eq_spec]

/-- C9 witness: concrete creates with no cookie and with the non-empty
cookie "sessA" over the empty table. -/
theorem sessionBootstrap_witness :
    (parseBody bodySalary = some ⟨"Salary", 5000, .credit⟩ ∧
      ("sessA" : String) ≠ "") ∧
    ((postRoute bodySalary ⟨none⟩ "t1" "s1" []).1.setCookie =
      some { name := "sessionId", value := "s1", path := "/",
             maxAge := 1000 * 60 * 60 * 24 * 7 } ∧
    (postRoute bodySalary ⟨none⟩ "t1" "s1" []).2.1 =
      [] ++ [{ id := "t1", title := "Salary",
               amount := specSignAdjusted 5000 .credit, session_id := "s1" }] ∧
    (postRoute bodySalary ⟨some "sessA"⟩ "t1" "s1" []).1.setCookie = none ∧
    (postRoute bodySalary ⟨some "sessA"⟩ "t2" "s2"
        (postRoute bodySalary ⟨some "sessA"⟩ "t1" "s1" []).2.1).1.setCookie = none ∧
    (postRoute bodySalary ⟨some "sessA"⟩ "t2" "s2"
        (postRoute bodySalary ⟨some "sessA"⟩ "t1" "s1" []).2.1).2.1 =
      [] ++ [{ id := "t1", title := "Salary",
               amount := specSignAdjusted 5000 .credit, session_id := "sessA" },
             { id := "t2", title := "Salary",
               amount := specSignAdjusted 5000 .credit, session_id := "sessA" }]) :=
  ⟨⟨by decide, by decide⟩,
    sessionBootstrap bodySalary bodySalary ⟨"Salary", 5000, .credit⟩
      ⟨"Salary", 5000, .credit⟩ (by decide) (by decide)
      "sessA" "t1" "s1" "t2" "s2" (by decide) []⟩

/-- C10: validation failures leave the table exactly as it was: a create
whose body fails validation inserts no row, and an update whose body fails
validation changes no stored field — for every cookie state, table state
and path id, the resulting table equals the input table. -/
theorem validationAtomicity (badBody : ReqBody) (hbody : parseBody badBody = none)
    (cookies : Cookies) (newTxId newSessId rawId : String) (db db₂ : Store) :
    (postRoute badBody cookies newTxId newSessId db).2.1 = db ∧
    (putRoute rawId badBody cookies db₂).2.1 = db₂ := by
  constructor
  · simp [postRoute, hbody]
  · rcases hc : cookies.sessionId with _ | s
    · simp [putRoute, checkSessionIdExists, hc]
    · rcases hu : isUUID rawId with _ | _
      · simp [putRoute, checkSessionIdExists, hc, hu]
      · rcases hx : (whereTx rawId (some s) db₂).head? with _ | tx0 <;>
          simp [putRoute, checkSessionIdExists, hc, hu, hx, hbody]

/-- C10 witness: the concrete bad body leaves both the empty table (create)
and the one-row table (update of txA) unchanged. -/
theorem validationAtomicity_witness :
    parseBody bodyBadTitle = none ∧
    ((postRoute bodyBadTitle ⟨some "sessA"⟩ "t1" "s1" []).2.1 = [] ∧
    (putRoute uuidA bodyBadTitle ⟨some "sessA"⟩ [txA]).2.1 = [txA]) :=
  ⟨by decide,
    validationAtomicity bodyBadTitle (by decide) ⟨some "sessA"⟩ "t1" "s1" uuidA [] [txA]⟩

end TxApi
